import Mathlib

/-!
Verification development for the EHMS avionics core (data acquisition and
alert manager).  The definitions below are a shallow embedding of the C
sources `src/ehms_types.h`, `src/alert_manager.c` and
`src/data_acquisition.c`: C enums become `Nat` constants (C compares them
as integers), `float` engineering values become exact rationals, the
statically allocated arrays become lists, and the module-global mutable
state becomes explicit state records threaded through the functions.
External collaborators (bus drivers, system clock, parameter database)
are passed in as an explicit environment record.
-/

/- ==================== ehms_types.h : constants ==================== -/

def EHMS_MAX_ENGINES : Nat := 4
def EHMS_MAX_ACTIVE_ALERTS : Nat := 32
def EHMS_ARINC429_BUS_COUNT : Nat := 4
def EHMS_PARAM_COUNT : Nat := 48

/-- `ehms_result_t` values (a C enum of integers). -/
def EHMS_OK : Int := 0
def EHMS_ERROR : Int := -1
def EHMS_ERROR_PARAM : Int := -2
def EHMS_ERROR_RANGE : Int := -3
def EHMS_ERROR_TIMEOUT : Int := -4
def EHMS_ERROR_HARDWARE : Int := -7
def EHMS_ERROR_NOT_INIT : Int := -9
def EHMS_ERROR_CRC : Int := -10

/-- `ehms_param_status_t` values. -/
def EHMS_PARAM_VALID : Nat := 0
def EHMS_PARAM_STALE : Nat := 1
def EHMS_PARAM_FAILED : Nat := 2
def EHMS_PARAM_NCD : Nat := 3
def EHMS_PARAM_TEST_MODE : Nat := 4

/-- `ehms_alert_level_t` values. -/
def EHMS_ALERT_NONE : Nat := 0
def EHMS_ALERT_STATUS : Nat := 1
def EHMS_ALERT_ADVISORY : Nat := 2
def EHMS_ALERT_CAUTION : Nat := 3
def EHMS_ALERT_WARNING : Nat := 4

/-- `ehms_param_id_t` values (only the ones the threshold and
configuration tables use are named). -/
def EHMS_PARAM_N1 : Nat := 0
def EHMS_PARAM_N2 : Nat := 1
def EHMS_PARAM_EGT : Nat := 2
def EHMS_PARAM_FF : Nat := 3
def EHMS_PARAM_OIL_TEMP : Nat := 4
def EHMS_PARAM_OIL_PRESS : Nat := 5
def EHMS_PARAM_OIL_QTY : Nat := 6
def EHMS_PARAM_VIB_FAN : Nat := 7
def EHMS_PARAM_VIB_CORE : Nat := 8
def EHMS_PARAM_EPR : Nat := 9

/- ==================== ehms_types.h : structures ==================== -/

/-- `ehms_timestamp_t`. -/
structure EhmsTimestamp where
  year : Nat
  month : Nat
  day : Nat
  hour : Nat
  minute : Nat
  second : Nat
  millisecond : Nat
deriving DecidableEq, Repr

def zeroTimestamp : EhmsTimestamp := ⟨0, 0, 0, 0, 0, 0, 0⟩

/-- `ehms_parameter_t`.  The `float eng_value` is embedded as an exact
rational; the threshold comparisons in the alert manager are order
comparisons that the rationals reproduce. -/
structure EhmsParameter where
  param_id : Nat
  status : Nat
  raw_value : Int
  eng_value : Rat
  timestamp : EhmsTimestamp
  source_bus : Nat
deriving DecidableEq, Repr

/-- The all-zero `ehms_parameter_t` produced by `memset 0` (note that
status 0 is `EHMS_PARAM_VALID`). -/
def zeroParam : EhmsParameter :=
  { param_id := 0, status := 0, raw_value := 0, eng_value := 0,
    timestamp := zeroTimestamp, source_bus := 0 }

/-- `ehms_engine_snapshot_t`. -/
structure EhmsEngineSnapshot where
  engine_id : Nat
  sample_time : EhmsTimestamp
  flight_phase : Nat
  parameters : List EhmsParameter
  health_status : Nat
  crc32 : Nat
deriving DecidableEq, Repr

/-- The all-zero snapshot produced by `memset 0` of the module state. -/
def zeroSnapshot : EhmsEngineSnapshot :=
  { engine_id := 0, sample_time := zeroTimestamp, flight_phase := 0,
    parameters := List.replicate EHMS_PARAM_COUNT zeroParam,
    health_status := 0, crc32 := 0 }

/-- `ehms_alert_t`.  The `char message[64]` filled by `snprintf(fmt,
engine+1)` is embedded as the pair (format template, substituted engine
number); no claim inspects the rendered characters. -/
structure EhmsAlert where
  alert_id : Nat
  level : Nat
  engine_id : Nat
  param_id : Nat
  onset_time : EhmsTimestamp
  clear_time : EhmsTimestamp
  is_active : Bool
  is_latched : Bool
  is_inhibited : Bool
  message : String × Nat
  ecam_code : Nat
deriving DecidableEq, Repr

/- ==================== alert_manager.c ==================== -/

def ALERT_DEBOUNCE_CYCLES : Nat := 3
def ALERT_HYSTERESIS_PERCENT : Rat := 2

/-- One row of `s_thresholds`. -/
structure AlertThreshold where
  param_id : Nat
  level : Nat
  threshold : Rat
  high_limit : Bool
  ecam_code : Nat
  message : String
deriving Repr

/-- The static threshold table `s_thresholds`. -/
def s_thresholds : List AlertThreshold :=
  [ ⟨EHMS_PARAM_EGT, EHMS_ALERT_CAUTION, 950, true, 0x1001, "ENG %d EGT HIGH"⟩,
    ⟨EHMS_PARAM_EGT, EHMS_ALERT_WARNING, 1000, true, 0x1002, "ENG %d EGT OVERLIMIT"⟩,
    ⟨EHMS_PARAM_OIL_PRESS, EHMS_ALERT_CAUTION, 25, false, 0x2001, "ENG %d OIL PRESS LO"⟩,
    ⟨EHMS_PARAM_OIL_PRESS, EHMS_ALERT_WARNING, 15, false, 0x2002, "ENG %d OIL PRESS CRIT"⟩,
    ⟨EHMS_PARAM_OIL_TEMP, EHMS_ALERT_CAUTION, 140, true, 0x2003, "ENG %d OIL TEMP HI"⟩,
    ⟨EHMS_PARAM_OIL_TEMP, EHMS_ALERT_WARNING, 155, true, 0x2004, "ENG %d OIL TEMP CRIT"⟩,
    ⟨EHMS_PARAM_VIB_FAN, EHMS_ALERT_CAUTION, 3, true, 0x3001, "ENG %d FAN VIB HI"⟩,
    ⟨EHMS_PARAM_VIB_FAN, EHMS_ALERT_WARNING, 5, true, 0x3002, "ENG %d FAN VIB CRIT"⟩,
    ⟨EHMS_PARAM_VIB_CORE, EHMS_ALERT_CAUTION, 4, true, 0x3003, "ENG %d CORE VIB HI"⟩,
    ⟨EHMS_PARAM_VIB_CORE, EHMS_ALERT_WARNING, 6, true, 0x3004, "ENG %d CORE VIB CRIT"⟩,
    ⟨EHMS_PARAM_N1, EHMS_ALERT_WARNING, 104, true, 0x4001, "ENG %d N1 OVERLIMIT"⟩,
    ⟨EHMS_PARAM_N2, EHMS_ALERT_WARNING, 105, true, 0x4002, "ENG %d N2 OVERLIMIT"⟩ ]

/-- `alert_state_t`.  The C stores alerts in a fixed array
`alerts[EHMS_MAX_ACTIVE_ALERTS]` with a fill count `active_count`; the
filled prefix is embedded as a list, so `active_count` is
`alerts.length`. -/
structure AlertState where
  alerts : List EhmsAlert
  next_alert_id : Nat
  master_caution : Bool
  master_warning : Bool
  highest_level : Nat
deriving DecidableEq, Repr

/-- `alert_init` (the state it leaves behind; the function also returns
`EHMS_OK`). -/
def alert_init : AlertState :=
  { alerts := [], next_alert_id := 1, master_caution := false,
    master_warning := false, highest_level := EHMS_ALERT_NONE }

/-- The alert record built in the creation branch of
`alert_process_snapshot`.  `clear_time` and `is_inhibited` are never
written by the C module, so the slot keeps the zero bytes from
`alert_init`'s memset (slots are written once: `active_count` never
decreases). -/
def mkNewAlert (snapshot : EhmsEngineSnapshot) (thresh : AlertThreshold)
    (id : Nat) : EhmsAlert :=
  { alert_id := id, level := thresh.level, engine_id := snapshot.engine_id,
    param_id := thresh.param_id, onset_time := snapshot.sample_time,
    clear_time := zeroTimestamp, is_active := true,
    is_latched := decide (EHMS_ALERT_WARNING ≤ thresh.level),
    is_inhibited := false,
    message := (thresh.message, snapshot.engine_id + 1),
    ecam_code := thresh.ecam_code }

/-- The `bool exceeded` local of `alert_process_snapshot`. -/
def exceededFlag (snapshot : EhmsEngineSnapshot)
    (thresh : AlertThreshold) : Bool :=
  if thresh.high_limit then
    decide (thresh.threshold ≤ (snapshot.parameters.getD thresh.param_id zeroParam).eng_value)
  else
    decide ((snapshot.parameters.getD thresh.param_id zeroParam).eng_value ≤ thresh.threshold)

/-- The `bool already_active` local of `alert_process_snapshot`: the scan
of the active set for an alert with the same
`(param_id, engine_id, level)` tuple. -/
def alreadyActiveFlag (st : AlertState) (snapshot : EhmsEngineSnapshot)
    (thresh : AlertThreshold) : Bool :=
  st.alerts.any fun a =>
    a.param_id == thresh.param_id && a.engine_id == snapshot.engine_id &&
    a.level == thresh.level

/-- The body of the threshold loop of `alert_process_snapshot` for one
row of `s_thresholds`.  Calls to `eicas_post_message` and
`recorder_log_alert` are outbound sinks whose results the C discards. -/
def processThreshold (snapshot : EhmsEngineSnapshot) (st : AlertState)
    (thresh : AlertThreshold) : AlertState :=
  if (snapshot.parameters.getD thresh.param_id zeroParam).status ≠ EHMS_PARAM_VALID then
    st
  else if exceededFlag snapshot thresh then
    if alreadyActiveFlag st snapshot thresh = false ∧
        st.alerts.length < EHMS_MAX_ACTIVE_ALERTS then
      { alerts := st.alerts ++ [mkNewAlert snapshot thresh st.next_alert_id],
        next_alert_id := st.next_alert_id + 1,
        master_warning :=
          if EHMS_ALERT_WARNING ≤ thresh.level then true else st.master_warning,
        master_caution :=
          if EHMS_ALERT_WARNING ≤ thresh.level then st.master_caution
          else if EHMS_ALERT_CAUTION ≤ thresh.level then true
          else st.master_caution,
        highest_level :=
          if st.highest_level < thresh.level then thresh.level
          else st.highest_level }
    else st
  else st

/-- `alert_process_snapshot` (non-NULL path; a NULL snapshot pointer has
no counterpart in the embedding, the C returns `EHMS_ERROR_PARAM` for
it without touching the state). -/
def alert_process_snapshot (snapshot : EhmsEngineSnapshot)
    (st : AlertState) : Int × AlertState :=
  (EHMS_OK, s_thresholds.foldl (processThreshold snapshot) st)

/-- `alert_get_active_count`. -/
def alert_get_active_count (st : AlertState) : Nat := st.alerts.length

/-- `alert_get_highest_level`. -/
def alert_get_highest_level (st : AlertState) : Nat := st.highest_level

/-- `alert_is_master_warning`. -/
def alert_is_master_warning (st : AlertState) : Bool := st.master_warning

/-- `alert_is_master_caution`. -/
def alert_is_master_caution (st : AlertState) : Bool := st.master_caution

/-- `alert_acknowledge`. -/
def alert_acknowledge (level : Nat) (st : AlertState) : Int × AlertState :=
  if EHMS_ALERT_WARNING ≤ level then
    (EHMS_OK, { st with master_warning := false })
  else if EHMS_ALERT_CAUTION ≤ level then
    (EHMS_OK, { st with master_caution := false })
  else
    (EHMS_OK, st)

/-- The operations the cyclic executive may invoke on the alert manager
after `alert_init`. -/
inductive AlertOp where
  | proc (snapshot : EhmsEngineSnapshot)
  | ack (level : Nat)

/-- One alert-manager call. -/
def alertStep (st : AlertState) : AlertOp → AlertState
  | .proc snapshot => (alert_process_snapshot snapshot st).2
  | .ack level => (alert_acknowledge level st).2

/-- The alert-manager state after a sequence of calls from
`alert_init`. -/
def alertRun (ops : List AlertOp) : AlertState :=
  ops.foldl alertStep alert_init

/- ==================== concrete alert-manager fixtures ==================== -/

/-- A sample wall-clock timestamp. -/
def tsSample : EhmsTimestamp := ⟨2025, 1, 15, 12, 0, 0, 0⟩

/-- A full 48-entry parameter array, every entry `Valid`, with the
engineering value of parameter `p` given by `f p`. -/
def mkValidParams (f : Nat → Rat) : List EhmsParameter :=
  (List.range EHMS_PARAM_COUNT).map fun p =>
    { zeroParam with param_id := p, eng_value := f p }

/-- Snapshot of engine 2 (0-based id 1) with a valid EGT reading of
950 °C and all other parameters at unalarming values (oil pressure 50
PSI, everything else 0). -/
def snapEgtHigh : EhmsEngineSnapshot :=
  { engine_id := 1, sample_time := tsSample, flight_phase := 0,
    parameters := mkValidParams fun p =>
      if p = EHMS_PARAM_EGT then 950 else if p = EHMS_PARAM_OIL_PRESS then 50 else 0,
    health_status := 0, crc32 := 0 }

/-- Snapshot of engine 2 with every parameter valid and no threshold
exceeded (EGT back at 500 °C, oil pressure 50 PSI). -/
def snapEgtRecovered : EhmsEngineSnapshot :=
  { engine_id := 1, sample_time := tsSample, flight_phase := 0,
    parameters := mkValidParams fun p =>
      if p = EHMS_PARAM_EGT then 500 else if p = EHMS_PARAM_OIL_PRESS then 50 else 0,
    health_status := 0, crc32 := 0 }

/-- The active, non-latched EGT caution alert that processing
`snapEgtHigh` from `alert_init` creates. -/
def egtCautionAlert : EhmsAlert :=
  { alert_id := 1, level := EHMS_ALERT_CAUTION, engine_id := 1,
    param_id := EHMS_PARAM_EGT, onset_time := tsSample,
    clear_time := zeroTimestamp, is_active := true, is_latched := false,
    is_inhibited := false, message := ("ENG %d EGT HIGH", 2),
    ecam_code := 0x1001 }

/-- Alert-manager state holding exactly the active non-latched EGT
caution alert for engine 2. -/
def stOneCaution : AlertState :=
  { alerts := [egtCautionAlert], next_alert_id := 2,
    master_caution := true, master_warning := false,
    highest_level := EHMS_ALERT_CAUTION }

/-- A distinct active alert for each of the 32 slots: engines 0–3 times
the eight `(param_id, level)` pairs of the first eight threshold
rows. -/
def mkSaturationAlert (i : Nat) : EhmsAlert :=
  { alert_id := i + 1,
    level := ([(EHMS_PARAM_EGT, EHMS_ALERT_CAUTION), (EHMS_PARAM_EGT, EHMS_ALERT_WARNING),
               (EHMS_PARAM_OIL_PRESS, EHMS_ALERT_CAUTION), (EHMS_PARAM_OIL_PRESS, EHMS_ALERT_WARNING),
               (EHMS_PARAM_OIL_TEMP, EHMS_ALERT_CAUTION), (EHMS_PARAM_OIL_TEMP, EHMS_ALERT_WARNING),
               (EHMS_PARAM_VIB_FAN, EHMS_ALERT_CAUTION), (EHMS_PARAM_VIB_FAN, EHMS_ALERT_WARNING)].getD (i % 8) (0, 0)).2,
    engine_id := i / 8,
    param_id := ([(EHMS_PARAM_EGT, EHMS_ALERT_CAUTION), (EHMS_PARAM_EGT, EHMS_ALERT_WARNING),
               (EHMS_PARAM_OIL_PRESS, EHMS_ALERT_CAUTION), (EHMS_PARAM_OIL_PRESS, EHMS_ALERT_WARNING),
               (EHMS_PARAM_OIL_TEMP, EHMS_ALERT_CAUTION), (EHMS_PARAM_OIL_TEMP, EHMS_ALERT_WARNING),
               (EHMS_PARAM_VIB_FAN, EHMS_ALERT_CAUTION), (EHMS_PARAM_VIB_FAN, EHMS_ALERT_WARNING)].getD (i % 8) (0, 0)).1,
    onset_time := zeroTimestamp, clear_time := zeroTimestamp,
    is_active := true, is_latched := decide (i % 2 = 1), is_inhibited := false,
    message := ("", i / 8 + 1), ecam_code := 0 }

/-- A saturated alert-manager state: 32 distinct active alerts. -/
def stSaturated : AlertState :=
  { alerts := (List.range EHMS_MAX_ACTIVE_ALERTS).map mkSaturationAlert,
    next_alert_id := 33, master_caution := true, master_warning := true,
    highest_level := EHMS_ALERT_WARNING }

/-- Snapshot of engine 1 with a fresh core-vibration caution exceedance
(5 IPS ≥ 4 IPS) whose tuple is not among the 32 saturated alerts; all
other parameters are unalarming. -/
def snapVibCore : EhmsEngineSnapshot :=
  { engine_id := 0, sample_time := tsSample, flight_phase := 0,
    parameters := mkValidParams fun p =>
      if p = EHMS_PARAM_VIB_CORE then 5 else if p = EHMS_PARAM_OIL_PRESS then 50 else 0,
    health_status := 0, crc32 := 0 }

/-- State with both master indicators lit (an active caution and an
active warning would produce it). -/
def stBothMasters : AlertState :=
  { alerts := [], next_alert_id := 1, master_caution := true,
    master_warning := true, highest_level := EHMS_ALERT_WARNING }

/- ==================== alert-manager lemmas ==================== -/

/-- `processThreshold` leaves a full active set entirely unchanged: the
only mutation in the loop body is guarded by
`active_count < EHMS_MAX_ACTIVE_ALERTS`. -/
lemma processThreshold_of_full (snapshot : EhmsEngineSnapshot)
    (st : AlertState) (thresh : AlertThreshold)
    (h : ¬ st.alerts.length < EHMS_MAX_ACTIVE_ALERTS) :
    processThreshold snapshot st thresh = st := by
  unfold processThreshold
  split
  · rfl
  · split
    · split
      · rename_i hc
        exact absurd hc.2 h
      · rfl
    · rfl

lemma foldl_processThreshold_of_full (snapshot : EhmsEngineSnapshot)
    (l : List AlertThreshold) (st : AlertState)
    (h : ¬ st.alerts.length < EHMS_MAX_ACTIVE_ALERTS) :
    l.foldl (processThreshold snapshot) st = st := by
  induction l with
  | nil => rfl
  | cons t ts ih =>
      simp only [List.foldl_cons, processThreshold_of_full snapshot st t h]
      exact ih

/- ==================== claim theorems : alert manager ==================== -/

/-- C4 — the claim says `alert_process_snapshot` never allocates an
alert before 3 consecutive ticks of exceedance.  The code has no
debounce (`ALERT_DEBOUNCE_CYCLES` is defined but never used): a single
processing call from the freshly initialized state with one valid EGT
reading of 950 °C already allocates the caution alert. -/
theorem alert_created_on_first_tick :
    (alertRun [AlertOp.proc snapEgtHigh]).alerts =
      [egtCautionAlert] ∧
    alert_get_active_count (alertRun [AlertOp.proc snapEgtHigh]) = 1 ∧
    alert_is_master_caution (alertRun [AlertOp.proc snapEgtHigh]) = true := by
  decide

/-- C3 — the claim says that a valid, non-exceeded parameter clears an
active non-latched alert for its tuple.  The code has no clearing path
at all: processing a snapshot in which every parameter is valid and no
threshold is exceeded leaves the state (including the active EGT
caution alert and its never-stamped `clear_time`) exactly unchanged. -/
theorem alert_never_cleared :
    alert_process_snapshot snapEgtRecovered stOneCaution =
      (EHMS_OK, stOneCaution) ∧
    (stOneCaution.alerts.getD 0 egtCautionAlert).is_latched = false ∧
    exceededFlag snapEgtRecovered (s_thresholds.getD 0 ⟨0,0,0,true,0,""⟩) = false := by
  decide

/-- C5 counterexample — with the active set saturated (32 alerts) and a
new distinct core-vibration exceedance, `alert_process_snapshot`
returns `EHMS_OK`, the success code, not an error: no `QueueFull`-like
error is reported (the drop itself and the untouched state are
real). -/
theorem queue_full_returns_ok :
    alert_process_snapshot snapVibCore stSaturated = (EHMS_OK, stSaturated) := by
  decide

/-- C5 amended — when the active set is full, a processing call drops
every new alert silently: the state is unchanged and the call returns
`EHMS_OK`. -/
theorem full_set_drops_silently (st : AlertState) (snapshot : EhmsEngineSnapshot)
    (h : st.alerts.length = EHMS_MAX_ACTIVE_ALERTS) :
    alert_process_snapshot snapshot st = (EHMS_OK, st) := by
  unfold alert_process_snapshot
  rw [foldl_processThreshold_of_full]
  omega

/-- Witness for `full_set_drops_silently` at the saturated state. -/
theorem full_set_drops_silently_witness :
    stSaturated.alerts.length = EHMS_MAX_ACTIVE_ALERTS ∧
    alert_process_snapshot snapVibCore stSaturated = (EHMS_OK, stSaturated) :=
  ⟨by decide, full_set_drops_silently stSaturated snapVibCore (by decide)⟩

/-- C6 counterexample — the claim says `acknowledge(Caution)` clears
master-caution *and* master-warning.  The code's `else if` clears only
the caution indicator: with both masters lit, acknowledging at Caution
leaves master-warning set. -/
theorem ack_caution_leaves_warning :
    alert_is_master_warning (alert_acknowledge EHMS_ALERT_CAUTION stBothMasters).2 = true ∧
    alert_is_master_caution (alert_acknowledge EHMS_ALERT_CAUTION stBothMasters).2 = false := by
  decide

/-- C6 amended — `alert_acknowledge(level)` clears exactly one master
indicator: master-warning when `level ≥ Warning`, otherwise
master-caution when `level ≥ Caution`; it never touches the active
alert set, the alert-id counter or the recorded highest level. -/
theorem ack_clears_one_band (st : AlertState) (level : Nat) :
    (alert_acknowledge level st).1 = EHMS_OK ∧
    (alert_acknowledge level st).2.alerts = st.alerts ∧
    (alert_acknowledge level st).2.next_alert_id = st.next_alert_id ∧
    (alert_acknowledge level st).2.highest_level = st.highest_level ∧
    (alert_acknowledge level st).2.master_warning =
      (if EHMS_ALERT_WARNING ≤ level then false else st.master_warning) ∧
    (alert_acknowledge level st).2.master_caution =
      (if EHMS_ALERT_WARNING ≤ level then st.master_caution
       else if EHMS_ALERT_CAUTION ≤ level then false else st.master_caution) := by
  unfold alert_acknowledge
  split
  · rename_i hw
    simp [hw]
  · rename_i hw
    split
    · rename_i hc
      simp [hw, hc]
    · rename_i hc
      simp [hw, hc]

/-- Two alerts with different `(engine_id, param_id, level)` tuples. -/
def tupleDistinct (a b : EhmsAlert) : Prop :=
  ¬ (a.engine_id = b.engine_id ∧ a.param_id = b.param_id ∧ a.level = b.level)

lemma alreadyActiveFlag_false {st : AlertState} {snapshot : EhmsEngineSnapshot}
    {thresh : AlertThreshold} (h : alreadyActiveFlag st snapshot thresh = false) :
    ∀ a ∈ st.alerts,
      ¬ (a.engine_id = snapshot.engine_id ∧ a.param_id = thresh.param_id ∧
         a.level = thresh.level) := by
  intro a ha hcontra
  unfold alreadyActiveFlag at h
  rw [List.any_eq_false] at h
  exact h a ha (by simp [hcontra.1, hcontra.2.1, hcontra.2.2])

lemma processThreshold_pairwise (snapshot : EhmsEngineSnapshot)
    (thresh : AlertThreshold) {st : AlertState}
    (h : st.alerts.Pairwise tupleDistinct) :
    ((processThreshold snapshot st thresh).alerts).Pairwise tupleDistinct := by
  unfold processThreshold
  split
  · exact h
  · split
    · split
      · rename_i hcond
        simp only [List.pairwise_append, List.pairwise_singleton, true_and]
        refine ⟨h, ?_⟩
        intro a ha b hb
        simp only [List.mem_singleton] at hb
        subst hb
        have hda := alreadyActiveFlag_false hcond.1 a ha
        simp only [tupleDistinct, mkNewAlert]
        exact hda
      · exact h
    · exact h

lemma foldl_processThreshold_pairwise (snapshot : EhmsEngineSnapshot)
    (l : List AlertThreshold) :
    ∀ st : AlertState, st.alerts.Pairwise tupleDistinct →
      ((l.foldl (processThreshold snapshot) st).alerts).Pairwise tupleDistinct := by
  induction l with
  | nil => intro st h; exact h
  | cons t ts ih =>
      intro st h
      exact ih _ (processThreshold_pairwise snapshot t h)

lemma ack_state_alerts (level : Nat) (st : AlertState) :
    (alert_acknowledge level st).2.alerts = st.alerts := by
  unfold alert_acknowledge
  split
  · rfl
  · split <;> rfl

lemma ack_state_highest (level : Nat) (st : AlertState) :
    (alert_acknowledge level st).2.highest_level = st.highest_level := by
  unfold alert_acknowledge
  split
  · rfl
  · split <;> rfl

lemma alertStep_pairwise (op : AlertOp) {st : AlertState}
    (h : st.alerts.Pairwise tupleDistinct) :
    ((alertStep st op).alerts).Pairwise tupleDistinct := by
  cases op with
  | proc snapshot =>
      exact foldl_processThreshold_pairwise snapshot s_thresholds st h
  | ack level =>
      simpa [alertStep, ack_state_alerts] using h

/-- C7 — alert uniqueness: in every state reachable from `alert_init`
by processing snapshots and acknowledging, the active set has at most
one alert per `(engine_id, param_id, level)` tuple (the creation branch
runs only when the duplicate scan found nothing, and alerts are never
removed). -/
theorem alert_tuple_uniqueness (ops : List AlertOp) :
    ((alertRun ops).alerts).Pairwise tupleDistinct := by
  unfold alertRun
  have main : ∀ (l : List AlertOp) (st : AlertState),
      st.alerts.Pairwise tupleDistinct →
      ((l.foldl alertStep st).alerts).Pairwise tupleDistinct := by
    intro l
    induction l with
    | nil => intro st h; exact h
    | cons op rest ih =>
        intro st h
        exact ih _ (alertStep_pairwise op h)
  exact main ops alert_init (by simp [alert_init])

lemma processThreshold_mem {snapshot : EhmsEngineSnapshot} {st : AlertState}
    {thresh : AlertThreshold} {a : EhmsAlert}
    (ha : a ∈ (processThreshold snapshot st thresh).alerts) :
    a ∈ st.alerts ∨
      (snapshot.parameters.getD a.param_id zeroParam).status = EHMS_PARAM_VALID := by
  unfold processThreshold at ha
  split at ha
  · exact Or.inl ha
  · rename_i hval
    rw [not_not] at hval
    split at ha
    · split at ha
      · simp only [List.mem_append, List.mem_singleton] at ha
        rcases ha with hmem | heq
        · exact Or.inl hmem
        · subst heq
          exact Or.inr (by simpa [mkNewAlert] using hval)
      · exact Or.inl ha
    · exact Or.inl ha

lemma foldl_processThreshold_mem (snapshot : EhmsEngineSnapshot)
    (l : List AlertThreshold) :
    ∀ (st : AlertState) (a : EhmsAlert),
      a ∈ (l.foldl (processThreshold snapshot) st).alerts →
      a ∈ st.alerts ∨
        (snapshot.parameters.getD a.param_id zeroParam).status = EHMS_PARAM_VALID := by
  induction l with
  | nil => intro st a ha; exact Or.inl ha
  | cons t ts ih =>
      intro st a ha
      rcases ih _ a ha with hmem | hvalid
      · exact processThreshold_mem hmem
      · exact Or.inr hvalid

/-- C9 — only `Valid` parameters raise alerts: every alert present after
a processing call was either already active before the call, or its
parameter has status `Valid` in the processed snapshot.  In particular a
`Stale`, `Failed`, `NoComputedData` or `Test` parameter never raises a
new alert, whatever its cached `eng_value`. -/
theorem invalid_params_raise_no_alerts (st : AlertState)
    (snapshot : EhmsEngineSnapshot) (a : EhmsAlert)
    (ha : a ∈ ((alert_process_snapshot snapshot st).2).alerts) :
    a ∈ st.alerts ∨
      (snapshot.parameters.getD a.param_id zeroParam).status = EHMS_PARAM_VALID :=
  foldl_processThreshold_mem snapshot s_thresholds st a ha

lemma processThreshold_highest_mono (snapshot : EhmsEngineSnapshot)
    (st : AlertState) (thresh : AlertThreshold) :
    st.highest_level ≤ (processThreshold snapshot st thresh).highest_level := by
  unfold processThreshold
  split
  · exact Nat.le_refl _
  · split
    · split
      · simp only []
        split
        · omega
        · exact Nat.le_refl _
      · exact Nat.le_refl _
    · exact Nat.le_refl _

lemma foldl_processThreshold_highest_mono (snapshot : EhmsEngineSnapshot)
    (l : List AlertThreshold) :
    ∀ st : AlertState,
      st.highest_level ≤ (l.foldl (processThreshold snapshot) st).highest_level := by
  induction l with
  | nil => intro st; exact Nat.le_refl _
  | cons t ts ih =>
      intro st
      exact Nat.le_trans (processThreshold_highest_mono snapshot st t) (ih _)

lemma alertStep_highest_mono (st : AlertState) (op : AlertOp) :
    st.highest_level ≤ (alertStep st op).highest_level := by
  cases op with
  | proc snapshot =>
      exact foldl_processThreshold_highest_mono snapshot s_thresholds st
  | ack level =>
      simp [alertStep, ack_state_highest]

/-- C10 — the recorded highest alert level never decreases: across any
sequence of `alert_process_snapshot` and `alert_acknowledge` calls, the
value `alert_get_highest_level` returns is monotonically
non-decreasing (processing only raises it, acknowledgement never
touches it). -/
theorem highest_level_monotone (st : AlertState) (ops : List AlertOp) :
    alert_get_highest_level st ≤
      alert_get_highest_level (ops.foldl alertStep st) := by
  unfold alert_get_highest_level
  induction ops generalizing st with
  | nil => exact Nat.le_refl _
  | cons op rest ih =>
      exact Nat.le_trans (alertStep_highest_mono st op) (ih _)

/-- Snapshot of engine 2 in which every parameter is `Stale`, with a
cached engineering value of 2000 (above every high threshold). -/
def snapAllStale : EhmsEngineSnapshot :=
  { engine_id := 1, sample_time := tsSample, flight_phase := 0,
    parameters := (List.range EHMS_PARAM_COUNT).map fun p =>
      { zeroParam with param_id := p, status := EHMS_PARAM_STALE, eng_value := 2000 },
    health_status := 0, crc32 := 0 }

/-- Witness for `invalid_params_raise_no_alerts` at a concrete stale
snapshot. -/
theorem invalid_params_raise_no_alerts_witness :
    egtCautionAlert ∈ ((alert_process_snapshot snapAllStale stOneCaution).2).alerts ∧
    (egtCautionAlert ∈ stOneCaution.alerts ∨
      (snapAllStale.parameters.getD egtCautionAlert.param_id zeroParam).status =
        EHMS_PARAM_VALID) :=
  ⟨by decide,
   invalid_params_raise_no_alerts stOneCaution snapAllStale egtCautionAlert (by decide)⟩

/- ==================== data_acquisition.c ==================== -/

def DAQ_STALE_TIMEOUT_MS : Nat := 100
def DAQ_MAX_CONSECUTIVE_FAILURES : Nat := 5
def DAQ_CRC32_POLYNOMIAL : Nat := 0xEDB88320

/-- One bit round of `daq_calculate_crc32`'s inner loop. -/
def crc32_bit (crc : Nat) : Nat :=
  if crc % 2 = 1 then Nat.xor (crc / 2) DAQ_CRC32_POLYNOMIAL else crc / 2

/-- `n` bit rounds. -/
def crc32_bits : Nat → Nat → Nat
  | 0, crc => crc
  | n + 1, crc => crc32_bits n (crc32_bit crc)

/-- One byte step of `daq_calculate_crc32`. -/
def crc32_byte (crc b : Nat) : Nat := crc32_bits 8 (Nat.xor crc b)

/-- The byte loop of `daq_calculate_crc32`.  The accumulator is
scrutinized (`0` / successor, an identity case split) so that kernel
evaluation at concrete inputs proceeds with one fully-evaluated
accumulator per byte instead of a payload-sized tower of thunks. -/
def crc32_loop : List Nat → Nat → Nat
  | [], crc => crc
  | b :: l, crc =>
      match crc32_byte crc b with
      | 0 => crc32_loop l 0
      | m + 1 => crc32_loop l (m + 1)

/-- `daq_calculate_crc32` over a byte list (init 0xFFFFFFFF, reflected
polynomial 0xEDB88320, final complement). -/
def daq_calculate_crc32 (bytes : List Nat) : Nat :=
  Nat.xor (crc32_loop bytes 0xFFFFFFFF) 0xFFFFFFFF

/- Byte serialization of the snapshot, modelling the in-memory bytes of
`ehms_engine_snapshot_t` that the C hands to `daq_calculate_crc32`
(`sizeof(ehms_engine_snapshot_t) - sizeof(uint32_t)`, i.e. everything
up to the trailing `crc32` field).  Integers are little-endian; the
four bytes of the IEEE-754 `eng_value` are modelled abstractly as a
function of the exact rational value; struct padding is not
modelled. -/

def u16LE (v : Nat) : List Nat := [v % 256, v / 256 % 256]

def u32LE (v : Nat) : List Nat :=
  [v % 256, v / 256 % 256, v / 65536 % 256, v / 16777216 % 256]

def i32LE (v : Int) : List Nat := u32LE ((v % ((2 : Int) ^ 32)).toNat)

def f32LE (q : Rat) : List Nat :=
  u32LE (((q.num * 65536 + q.den) % ((2 : Int) ^ 32)).toNat)

def timestampBytes (ts : EhmsTimestamp) : List Nat :=
  u16LE ts.year ++
    [ts.month % 256, ts.day % 256, ts.hour % 256, ts.minute % 256, ts.second % 256] ++
    u16LE ts.millisecond

def paramBytes (p : EhmsParameter) : List Nat :=
  u32LE p.param_id ++ u32LE p.status ++ i32LE p.raw_value ++ f32LE p.eng_value ++
    timestampBytes p.timestamp ++ [p.source_bus % 256]

def snapshotPayloadBytes (s : EhmsEngineSnapshot) : List Nat :=
  u32LE s.engine_id ++ timestampBytes s.sample_time ++ u32LE s.flight_phase ++
    (s.parameters.map paramBytes).flatten ++ u32LE s.health_status

/-- One row of `s_param_config` (`daq_param_config_t`). -/
structure DaqParamConfig where
  param_id : Nat
  arinc_label : Nat
  bus_primary : Nat
  bus_backup : Nat
  scale_factor : Rat
  offset : Rat

/-- A zero-initialized configuration row. -/
def zeroConfig : DaqParamConfig := ⟨0, 0, 0, 0, 0, 0⟩

/-- The static parameter configuration table `s_param_config`
(`[EHMS_PARAM_COUNT]`, octal ARINC labels written in decimal:
0o310 = 200 … 0o321 = 209).  The C initializes only the first 10 rows;
the remaining 38 rows are zero. -/
def s_param_config : List DaqParamConfig :=
  [ ⟨EHMS_PARAM_N1, 200, 0, 1, 1/10, 0⟩,
    ⟨EHMS_PARAM_N2, 201, 0, 1, 1/10, 0⟩,
    ⟨EHMS_PARAM_EGT, 202, 0, 1, 1, 0⟩,
    ⟨EHMS_PARAM_FF, 203, 0, 1, 1/10, 0⟩,
    ⟨EHMS_PARAM_OIL_TEMP, 204, 0, 1, 1/2, -40⟩,
    ⟨EHMS_PARAM_OIL_PRESS, 205, 0, 1, 1/10, 0⟩,
    ⟨EHMS_PARAM_OIL_QTY, 206, 0, 1, 1/2, 0⟩,
    ⟨EHMS_PARAM_VIB_FAN, 207, 2, 3, 1/1000, 0⟩,
    ⟨EHMS_PARAM_VIB_CORE, 208, 2, 3, 1/1000, 0⟩,
    ⟨EHMS_PARAM_EPR, 209, 0, 1, 1/1000, 0⟩ ] ++
  List.replicate 38 zeroConfig

/-- `daq_source_info_t`. -/
structure DaqSourceInfo where
  is_active : Bool
  is_primary : Bool
  bus_id : Nat
  last_update_ms : Nat
  failure_count : Nat
  total_samples : Nat
  error_samples : Nat
deriving DecidableEq, Repr

/-- `daq_module_state_t`.  `is_initialized` is embedded as `init_done`;
`state` as `sys_state`. -/
structure DaqState where
  init_done : Bool
  sys_state : Nat
  cycle_count : Nat
  current_time_ms : Nat
  sources : List DaqSourceInfo
  engine_data : List EhmsEngineSnapshot
  last_error : Int
deriving DecidableEq, Repr

/-- The external collaborators of the module, fixed for one acquisition
cycle: the system clock, the configured engine count, the ARINC 429 and
MIL-STD-1553 drivers (returning either a data word or a nonzero
`ehms_result_t` error code) and the parameter-limits database. -/
structure DaqEnv where
  time_ms : Nat
  timestamp : EhmsTimestamp
  engine_count : Nat
  arinc_read : Nat → Nat → Except Int Int
  milstd_read : Nat → Except Int (List Int)
  param_limits : Nat → Option (Rat × Rat)
  timestamp_to_ms : EhmsTimestamp → Nat

/-- The module state after a successful `daq_init` (memset to zero,
`daq_init_sources`, drivers initialized, `is_initialized = true`,
`state = EHMS_STATE_INIT`). -/
def daq_init_state : DaqState :=
  { init_done := true, sys_state := 1, cycle_count := 0, current_time_ms := 0,
    sources := (List.range EHMS_ARINC429_BUS_COUNT).map fun i =>
      { is_active := true, is_primary := decide (i < 2), bus_id := i,
        last_update_ms := 0, failure_count := 0, total_samples := 0,
        error_samples := 0 },
    engine_data := List.replicate EHMS_MAX_ENGINES zeroSnapshot,
    last_error := 0 }

/-- The per-source update performed by `daq_update_statistics` on the
indexed source (the C's sequential `++`/assignments collapsed into one
record update per branch: counters always advance, a success zeroes
`failure_count`, a failure bumps it and deactivates the source when it
reaches `DAQ_MAX_CONSECUTIVE_FAILURES`). -/
def daq_update_source (now : Nat) (s : DaqSourceInfo) (success : Bool) :
    DaqSourceInfo :=
  if success then
    { s with total_samples := s.total_samples + 1, last_update_ms := now,
             failure_count := 0 }
  else if DAQ_MAX_CONSECUTIVE_FAILURES ≤ s.failure_count + 1 then
    { s with total_samples := s.total_samples + 1, last_update_ms := now,
             error_samples := s.error_samples + 1,
             failure_count := s.failure_count + 1, is_active := false }
  else
    { s with total_samples := s.total_samples + 1, last_update_ms := now,
             error_samples := s.error_samples + 1,
             failure_count := s.failure_count + 1 }

/-- A zero source record (out-of-range list access fallback only). -/
def zeroSource : DaqSourceInfo :=
  { is_active := false, is_primary := false, bus_id := 0, last_update_ms := 0,
    failure_count := 0, total_samples := 0, error_samples := 0 }

/-- `daq_update_statistics`. -/
def daq_update_statistics (bus_id : Nat) (success : Bool) (st : DaqState) :
    DaqState :=
  if bus_id < EHMS_ARINC429_BUS_COUNT then
    { st with sources := (st.sources.set bus_id
        (daq_update_source st.current_time_ms (st.sources.getD bus_id zeroSource) success)) }
  else st

/-- Write parameter slot `p` of engine `engine`'s snapshot. -/
def setEngineParam (st : DaqState) (engine p : Nat) (param : EhmsParameter) :
    DaqState :=
  let snap := st.engine_data.getD engine zeroSnapshot
  { st with engine_data := (st.engine_data.set engine
      { snap with parameters := snap.parameters.set p param }) }

/-- `daq_read_arinc429_data(bus_id, engine)`: for every parameter index
`p` with `s_param_config[p].bus_primary == bus_id` (note: the filter
tests `bus_primary` even when the caller passes a backup bus id), read
the word, on success store the converted parameter and count a good
sample, on failure count an error.  The returned result is the last
read's result (`EHMS_OK` if no row matched). -/
def daq_read_arinc429_data (env : DaqEnv) (bus_id : Nat) (engine : Nat)
    (st : DaqState) : Int × DaqState :=
  (List.range EHMS_PARAM_COUNT).foldl
    (fun acc p =>
      let cfg := s_param_config.getD p zeroConfig
      if cfg.bus_primary = bus_id then
        match env.arinc_read bus_id cfg.arinc_label with
        | .ok data =>
            let param : EhmsParameter :=
              { param_id := p, raw_value := data,
                eng_value := (data : Rat) * cfg.scale_factor + cfg.offset,
                source_bus := bus_id, status := EHMS_PARAM_VALID,
                timestamp := env.timestamp }
            (EHMS_OK, daq_update_statistics bus_id true (setEngineParam acc.2 engine p param))
        | .error e => (e, daq_update_statistics bus_id false acc.2)
      else acc)
    (EHMS_OK, st)

/-- `daq_read_1553_data`: read sub-address 5 and, on success, store the
two vibration words (only `raw_value`, `eng_value` and `status` are
written). -/
def daq_read_1553_data (env : DaqEnv) (engine : Nat) (st : DaqState) :
    Int × DaqState :=
  match env.milstd_read 5 with
  | .ok msg =>
      let snap := st.engine_data.getD engine zeroSnapshot
      let vf := snap.parameters.getD EHMS_PARAM_VIB_FAN zeroParam
      let st1 := setEngineParam st engine EHMS_PARAM_VIB_FAN
        { vf with raw_value := msg.getD 0 0,
                  eng_value := (msg.getD 0 0 : Rat) * (1/1000),
                  status := EHMS_PARAM_VALID }
      let snap1 := st1.engine_data.getD engine zeroSnapshot
      let vc := snap1.parameters.getD EHMS_PARAM_VIB_CORE zeroParam
      let st2 := setEngineParam st1 engine EHMS_PARAM_VIB_CORE
        { vc with raw_value := msg.getD 1 0,
                  eng_value := (msg.getD 1 0 : Rat) * (1/1000),
                  status := EHMS_PARAM_VALID }
      (EHMS_OK, st2)
  | .error e => (e, st)

/-- `daq_validate_parameter` (its result code is discarded by the
caller). -/
def daq_validate_parameter (env : DaqEnv) (param : EhmsParameter) :
    EhmsParameter :=
  match env.param_limits param.param_id with
  | some lim =>
      if param.eng_value < lim.1 ∨ lim.2 < param.eng_value then
        { param with status := EHMS_PARAM_FAILED }
      else param
  | none => param

/-- `uint32_t` subtraction (the C age computation wraps modulo 2^32). -/
def u32sub (a b : Nat) : Nat := (a + (2 ^ 32 - b % 2 ^ 32)) % 2 ^ 32

/-- `daq_check_staleness` (its result code is discarded by the
caller). -/
def daq_check_staleness (env : DaqEnv) (now : Nat) (param : EhmsParameter) :
    EhmsParameter :=
  let age := u32sub now (env.timestamp_to_ms param.timestamp)
  if DAQ_STALE_TIMEOUT_MS < age then
    if param.status = EHMS_PARAM_VALID then
      { param with status := EHMS_PARAM_STALE }
    else param
  else param

/-- The per-engine body of `daq_execute_cycle`: primary-bus ARINC read,
whole-bus fallback to the backup bus id when the last primary read
failed, 1553 read, validation and staleness sweeps, CRC stamp, and —
after the CRC has been computed — the `sample_time` update. -/
def daq_engine_cycle (env : DaqEnv) (st : DaqState) (eng : Nat) : DaqState :=
  let pr := daq_read_arinc429_data env (s_param_config.getD 0 zeroConfig).bus_primary eng st
  let pr := if pr.1 ≠ EHMS_OK then
      daq_read_arinc429_data env (s_param_config.getD 0 zeroConfig).bus_backup eng pr.2
    else pr
  let pr := if pr.1 = EHMS_OK then daq_read_1553_data env eng pr.2 else pr
  let st := pr.2
  let snap := st.engine_data.getD eng zeroSnapshot
  let snap := { snap with parameters := (snap.parameters.map fun p =>
      daq_check_staleness env st.current_time_ms (daq_validate_parameter env p)) }
  let snap := { snap with crc32 := daq_calculate_crc32 (snapshotPayloadBytes snap) }
  let snap := { snap with sample_time := env.timestamp }
  { st with engine_data := st.engine_data.set eng snap }

/-- `daq_execute_cycle`. -/
def daq_execute_cycle (env : DaqEnv) (st : DaqState) : Int × DaqState :=
  if st.init_done = false then (EHMS_ERROR_NOT_INIT, st)
  else
    let st := { st with current_time_ms := env.time_ms,
                        cycle_count := st.cycle_count + 1 }
    (EHMS_OK, (List.range env.engine_count).foldl (daq_engine_cycle env) st)

/-- `daq_get_engine_snapshot` (non-NULL output pointer; the copied
snapshot is returned as the second component on success). -/
def daq_get_engine_snapshot (st : DaqState) (engine_id : Nat) :
    Int × Option EhmsEngineSnapshot :=
  if EHMS_MAX_ENGINES ≤ engine_id then (EHMS_ERROR_RANGE, none)
  else if st.init_done = false then (EHMS_ERROR_NOT_INIT, none)
  else
    let snap := st.engine_data.getD engine_id zeroSnapshot
    let calc_crc := daq_calculate_crc32 (snapshotPayloadBytes snap)
    if calc_crc ≠ snap.crc32 then (EHMS_ERROR_CRC, none)
    else (EHMS_OK, some snap)

/-- `daq_get_statistics` (the per-bus counters). -/
def daq_get_statistics (st : DaqState) : Nat × Nat × List (Nat × Nat) :=
  (st.cycle_count, st.current_time_ms,
    (List.range EHMS_ARINC429_BUS_COUNT).map fun i =>
      ((st.sources.getD i zeroSource).total_samples,
       (st.sources.getD i zeroSource).error_samples))

/-- `daq_get_parameter` (non-NULL output pointer). -/
def daq_get_parameter (st : DaqState) (engine_id param_id : Nat) :
    Int × Option EhmsParameter :=
  if EHMS_MAX_ENGINES ≤ engine_id ∨ EHMS_PARAM_COUNT ≤ param_id then
    (EHMS_ERROR_RANGE, none)
  else if st.init_done = false then (EHMS_ERROR_NOT_INIT, none)
  else
    (EHMS_OK,
     some ((st.engine_data.getD engine_id zeroSnapshot).parameters.getD param_id zeroParam))

/- ==================== concrete acquisition fixtures ==================== -/

/-- Environment for one cycle at t = 1000 ms with every bus read
failing (`EHMS_ERROR_HARDWARE`), one configured engine, and no limits
in the parameter database. -/
def envAllFail : DaqEnv :=
  { time_ms := 1000, timestamp := tsSample, engine_count := 1,
    arinc_read := fun _ _ => Except.error EHMS_ERROR_HARDWARE,
    milstd_read := fun _ => Except.error EHMS_ERROR_HARDWARE,
    param_limits := fun _ => none,
    timestamp_to_ms := fun ts => ts.millisecond + 1000 * ts.second }

/-- Environment in which every read on primary bus 0 fails with
`EHMS_ERROR_HARDWARE` and every read on backup bus 1 succeeds with
data word 850 — the scenario of testable property 4 and of the unit
test `test_daq_source_switchover`. -/
def envBackupOk : DaqEnv :=
  { envAllFail with
    arinc_read := fun bus _ =>
      if bus = 0 then Except.error EHMS_ERROR_HARDWARE else Except.ok 850 }

/-- The module state after one `daq_execute_cycle` in `envAllFail`. -/
def stAfterFailedCycle : DaqState := (daq_execute_cycle envAllFail daq_init_state).2

/-- The module state after one `daq_execute_cycle` in `envBackupOk`. -/
def stAfterFailoverCycle : DaqState := (daq_execute_cycle envBackupOk daq_init_state).2

/- ==================== claim theorems : acquisition ==================== -/

set_option maxRecDepth 100000

/-- C1 — the claim says that immediately after `daq_execute_cycle`
returns Ok the snapshot's `crc32` matches its payload, so
`daq_get_engine_snapshot` returns Ok.  The code stamps `sample_time`
*after* computing the CRC, so the stored CRC covers the old timestamp:
after the very first cycle the module's own reader reports
`EHMS_ERROR_CRC` on engine 0, and the stored `crc32` equals the CRC of
the payload with `sample_time` rolled back to its pre-cycle (zero)
value. -/
theorem crc_mismatch_after_first_cycle :
    (daq_execute_cycle envAllFail daq_init_state).1 = EHMS_OK ∧
    (daq_get_engine_snapshot stAfterFailedCycle 0).1 = EHMS_ERROR_CRC ∧
    (stAfterFailedCycle.engine_data.getD 0 zeroSnapshot).crc32 =
      daq_calculate_crc32 (snapshotPayloadBytes
        { stAfterFailedCycle.engine_data.getD 0 zeroSnapshot with
          sample_time := zeroTimestamp }) := by
  decide

/-- C2 — the claim says that when a parameter's primary-bus read fails
and its backup-bus read succeeds, the stored sample is `Valid` with
`source_bus` = backup and both buses' counters advance.  The backup
pass filters rows by `bus_primary == bus_id` with the *backup* bus id,
which matches no row: after a cycle in which bus 0 always fails and
bus 1 always succeeds, parameter N1 of engine 0 is `Stale` with
`source_bus` 0 (never written from the backup), and bus 1's sample and
error counters are still 0.  The repository's own
`test_daq_source_switchover` asserts the opposite (`Valid`,
`source_bus == 1`). -/
theorem backup_failover_never_happens :
    (daq_execute_cycle envBackupOk daq_init_state).1 = EHMS_OK ∧
    (daq_get_parameter stAfterFailoverCycle 0 EHMS_PARAM_N1).2 =
      some { param_id := EHMS_PARAM_N1, status := EHMS_PARAM_STALE,
             raw_value := 0, eng_value := 0, timestamp := zeroTimestamp,
             source_bus := 0 } ∧
    (stAfterFailoverCycle.sources.getD 1 zeroSource).total_samples = 0 ∧
    (stAfterFailoverCycle.sources.getD 1 zeroSource).error_samples = 0 := by
  decide

/- ==================== source-health trace machinery ==================== -/

/-- The source record each bus starts with after `daq_init`
(`daq_init_sources`): active, zero counters. -/
def initSource : DaqSourceInfo := daq_init_state.sources.getD 0 zeroSource

/-- The state of one bus's source record after a trace of reads, each
read given as (current time, success flag), applied through
`daq_update_statistics`'s per-source update. -/
def daq_source_run (tr : List (Nat × Bool)) : DaqSourceInfo :=
  tr.foldl (fun s p => daq_update_source p.1 s p.2) initSource

/-- Length of the leading run of failures (`false`) of a trace. -/
def leadFails : List Bool → Nat
  | [] => 0
  | true :: _ => 0
  | false :: l => leadFails l + 1

/-- The trace contains `DAQ_MAX_CONSECUTIVE_FAILURES` consecutive
failing reads somewhere. -/
def hasFailRun (bs : List Bool) : Prop :=
  ∃ l₁ l₂, bs = l₁ ++ (List.replicate DAQ_MAX_CONSECUTIVE_FAILURES false ++ l₂)

lemma hasFailRun_nil : ¬ hasFailRun [] := by
  rintro ⟨l₁, l₂, h⟩
  have hlen := congrArg List.length h
  simp [DAQ_MAX_CONSECUTIVE_FAILURES] at hlen
  omega

lemma hasFailRun_cons_true {l : List Bool} :
    hasFailRun (true :: l) ↔ hasFailRun l := by
  constructor
  · rintro ⟨l₁, l₂, h⟩
    cases l₁ with
    | nil =>
        simp [DAQ_MAX_CONSECUTIVE_FAILURES, List.replicate] at h
    | cons a l₁ =>
        simp only [List.cons_append, List.cons.injEq] at h
        exact ⟨l₁, l₂, h.2⟩
  · rintro ⟨l₁, l₂, h⟩
    exact ⟨true :: l₁, l₂, by simp [h]⟩

lemma hasFailRun_cons_false {l : List Bool} :
    hasFailRun (false :: l) ↔
      (∃ l₂, l = List.replicate 4 false ++ l₂) ∨ hasFailRun l := by
  constructor
  · rintro ⟨l₁, l₂, h⟩
    cases l₁ with
    | nil =>
        left
        simp only [List.nil_append, DAQ_MAX_CONSECUTIVE_FAILURES] at h
        rw [show List.replicate 5 false = false :: List.replicate 4 false from rfl] at h
        simp only [List.cons_append, List.cons.injEq, true_and] at h
        exact ⟨l₂, h⟩
    | cons a l₁ =>
        right
        simp only [List.cons_append, List.cons.injEq] at h
        exact ⟨l₁, l₂, h.2⟩
  · rintro (⟨l₂, h⟩ | ⟨l₁, l₂, h⟩)
    · refine ⟨[], l₂, ?_⟩
      rw [show List.replicate DAQ_MAX_CONSECUTIVE_FAILURES false =
            false :: List.replicate 4 false from rfl]
      simp [h]
    · exact ⟨false :: l₁, l₂, by simp [h]⟩

lemma replicate_prefix_of_leadFails :
    ∀ (n : Nat) (l : List Bool), n ≤ leadFails l →
      ∃ l₂, l = List.replicate n false ++ l₂ := by
  intro n
  induction n with
  | zero => intro l _; exact ⟨l, rfl⟩
  | succ m ih =>
      intro l h
      cases l with
      | nil => simp [leadFails] at h
      | cons b t =>
          cases b with
          | true => simp [leadFails] at h
          | false =>
              have h' : m ≤ leadFails t := by
                simp only [leadFails] at h
                omega
              obtain ⟨l₂, hl⟩ := ih t h'
              exact ⟨l₂, by simp [List.replicate, hl]⟩

lemma leadFails_ge_of_replicate_prefix {l l₂ : List Bool}
    (h : l = List.replicate 4 false ++ l₂) : 4 ≤ leadFails l := by
  subst h
  simp [List.replicate, leadFails]

lemma hasFailRun_of_leadFails {l : List Bool} (h : 5 ≤ leadFails l) :
    hasFailRun l := by
  obtain ⟨l₂, hl⟩ := replicate_prefix_of_leadFails 5 l h
  exact ⟨[], l₂, by simpa [DAQ_MAX_CONSECUTIVE_FAILURES] using hl⟩

lemma update_source_true_failure_count (now : Nat) (s : DaqSourceInfo) :
    (daq_update_source now s true).failure_count = 0 := rfl

lemma update_source_true_active (now : Nat) (s : DaqSourceInfo) :
    (daq_update_source now s true).is_active = s.is_active := rfl

lemma update_source_false_failure_count (now : Nat) (s : DaqSourceInfo) :
    (daq_update_source now s false).failure_count = s.failure_count + 1 := by
  unfold daq_update_source
  split
  · rename_i hx
    simp at hx
  · split <;> rfl

lemma update_source_false_active (now : Nat) (s : DaqSourceInfo) :
    (daq_update_source now s false).is_active =
      if 5 ≤ s.failure_count + 1 then false else s.is_active := by
  unfold daq_update_source
  split
  · rename_i hx
    simp at hx
  · split
    · rename_i hc
      rw [if_pos (by simpa [DAQ_MAX_CONSECUTIVE_FAILURES] using hc)]
    · rename_i hc
      rw [if_neg (by simpa [DAQ_MAX_CONSECUTIVE_FAILURES] using hc)]

lemma foldl_update_source_inactive :
    ∀ (tr : List (Nat × Bool)) (s : DaqSourceInfo),
      (s.is_active = true → s.failure_count < 5) →
      ((tr.foldl (fun s p => daq_update_source p.1 s p.2) s).is_active = false ↔
        s.is_active = false ∨
          5 ≤ s.failure_count + leadFails (tr.map Prod.snd) ∨
          hasFailRun (tr.map Prod.snd)) := by
  intro tr
  induction tr with
  | nil =>
      intro s h
      simp only [List.foldl_nil, List.map_nil, leadFails]
      constructor
      · intro hia
        exact Or.inl hia
      · rintro (hia | hmid | hrun)
        · exact hia
        · cases hsa : s.is_active with
          | false => rfl
          | true => have := h hsa; omega
        · exact absurd hrun hasFailRun_nil
  | cons p rest ih =>
      intro s h
      obtain ⟨now, b⟩ := p
      simp only [List.foldl_cons, List.map_cons]
      cases b with
      | true =>
          have h' : (daq_update_source now s true).is_active = true →
              (daq_update_source now s true).failure_count < 5 := by
            intro _
            rw [update_source_true_failure_count]
            omega
          rw [ih (daq_update_source now s true) h',
              update_source_true_active, update_source_true_failure_count,
              hasFailRun_cons_true]
          simp only [leadFails, Nat.zero_add, Nat.add_zero]
          constructor
          · rintro (hia | hmid | hrun)
            · exact Or.inl hia
            · exact Or.inr (Or.inr (hasFailRun_of_leadFails hmid))
            · exact Or.inr (Or.inr hrun)
          · rintro (hia | hmid | hrun)
            · exact Or.inl hia
            · cases hsa : s.is_active with
              | false => exact Or.inl rfl
              | true => have := h hsa; omega
            · exact Or.inr (Or.inr hrun)
      | false =>
          have h' : (daq_update_source now s false).is_active = true →
              (daq_update_source now s false).failure_count < 5 := by
            intro ha
            rw [update_source_false_active] at ha
            rw [update_source_false_failure_count]
            by_cases hc : 5 ≤ s.failure_count + 1
            · simp [hc] at ha
            · omega
          rw [ih (daq_update_source now s false) h',
              update_source_false_active, update_source_false_failure_count,
              hasFailRun_cons_false]
          simp only [leadFails]
          constructor
          · rintro (hia | hmid | hrun)
            · by_cases hc : 5 ≤ s.failure_count + 1
              · exact Or.inr (Or.inl (by omega))
              · simp only [if_neg hc] at hia
                exact Or.inl hia
            · exact Or.inr (Or.inl (by omega))
            · exact Or.inr (Or.inr (Or.inr hrun))
          · rintro (hia | hmid | hrest)
            · left
              rw [hia]
              split <;> rfl
            · exact Or.inr (Or.inl (by omega))
            · rcases hrest with ⟨l₂, hpre⟩ | hrun
              · have h4 := leadFails_ge_of_replicate_prefix hpre
                exact Or.inr (Or.inl (by omega))
              · exact Or.inr (Or.inr hrun)

/-- C8 — source deactivation: a bus's source record, driven from its
`daq_init` state through `daq_update_statistics`'s per-source update by
any trace of reads, is inactive exactly when the trace contains
`DAQ_MAX_CONSECUTIVE_FAILURES` (5) consecutive failing reads — in
particular `active` first becomes false on the 5th consecutive failure
and 4 failures never deactivate; moreover a successful read resets
`consecutive_failures` (`failure_count`) to 0 while never changing
`is_active`, so it does not re-activate a deactivated source. -/
theorem source_inactive_iff_five_failures :
    (∀ tr : List (Nat × Bool),
       ((daq_source_run tr).is_active = false ↔ hasFailRun (tr.map Prod.snd))) ∧
    (∀ (now : Nat) (s : DaqSourceInfo),
       (daq_update_source now s true).failure_count = 0 ∧
       (daq_update_source now s true).is_active = s.is_active) := by
  constructor
  · intro tr
    rw [daq_source_run,
        foldl_update_source_inactive tr initSource (by intro _; decide)]
    constructor
    · rintro (hia | hmid | hrun)
      · exact absurd hia (by decide)
      · rw [show initSource.failure_count = 0 from rfl] at hmid
        exact hasFailRun_of_leadFails (by omega)
      · exact hrun
    · intro hrun
      exact Or.inr (Or.inr hrun)
  · intro now s
    exact ⟨update_source_true_failure_count now s,
           update_source_true_active now s⟩
